import Mathlib

/-!
# dbus-daemon-proxy: a shallow embedding of `dbus-daemon-proxy.c`

The program is a single-client relay between a TCP D-Bus listener and the
real bus.  Its state is two globals (`dbus_conn`, `master_conn`) plus the
`verbose` flag; its logic is three libdbus callbacks (`new_connection_cb`,
`filter_cb`, `master_filter_cb`) and the start-up code (`start_bus`, `main`).

Calls into libdbus / GLib are recorded, in program order, as a list of
`Effect`s.  Results of library calls that the program branches on
(`dbus_message_append_args`, `dbus_message_marshal`, `dbus_g_bus_get`,
`dbus_server_listen`) are inputs of the embedded functions.
-/

namespace DBusProxy

/-! ## Data model -/

/-- Identity of a `DBusConnection *` (the pointer value). -/
abbrev Conn := Nat

/-- Identity of a `DBusServer *`. -/
abbrev Server := Nat

/-- Constant `DBUS_MESSAGE_TYPE_INVALID` of dbus-protocol.h. -/
def DBUS_MESSAGE_TYPE_INVALID : Nat := 0
/-- Constant `DBUS_MESSAGE_TYPE_METHOD_CALL` of dbus-protocol.h. -/
def DBUS_MESSAGE_TYPE_METHOD_CALL : Nat := 1
/-- Constant `DBUS_MESSAGE_TYPE_METHOD_RETURN` of dbus-protocol.h. -/
def DBUS_MESSAGE_TYPE_METHOD_RETURN : Nat := 2
/-- Constant `DBUS_MESSAGE_TYPE_ERROR` of dbus-protocol.h. -/
def DBUS_MESSAGE_TYPE_ERROR : Nat := 3
/-- Constant `DBUS_MESSAGE_TYPE_SIGNAL` of dbus-protocol.h. -/
def DBUS_MESSAGE_TYPE_SIGNAL : Nat := 4

/-- One argument of a message body. -/
inductive DBusArg where
  | string (s : String)
  | uint32 (n : Nat)
  | bytes (sig : String) (raw : List Nat)
  deriving DecidableEq, Repr

/-- The observable part of a `DBusMessage`.  A header field that is not
present is `none`: the libdbus getter returns `NULL` for it. -/
structure DBusMessage where
  type : Nat
  path : Option String
  interface : Option String
  member : Option String
  destination : Option String
  sender : Option String
  serial : Nat
  reply_serial : Option Nat
  args : List DBusArg
  deriving DecidableEq, Repr

/-- Values of `DBusHandlerResult`. -/
inductive DBusHandlerResult where
  | DBUS_HANDLER_RESULT_HANDLED
  | DBUS_HANDLER_RESULT_NOT_YET_HANDLED
  | DBUS_HANDLER_RESULT_NEED_MEMORY
  deriving DecidableEq, Repr

/-- Values of `DBusBusType` used by `main`. -/
inductive DBusBusType where
  | DBUS_BUS_SESSION
  | DBUS_BUS_SYSTEM
  deriving DecidableEq, Repr

/-- The two message filters of the program. -/
inductive FilterFn where
  | filter_cb
  | master_filter_cb
  deriving DecidableEq, Repr

/-- Connection to the real bus: what `dbus_g_connection_get_connection` and
`dbus_bus_get_unique_name` give for the `DBusGConnection` returned by
`dbus_g_bus_get` (a registered connection, so the unique name is set). -/
structure DBusGConnection where
  conn : Conn
  unique_name : String
  deriving DecidableEq, Repr

/-- Library calls made by the program, in the order the code makes them. -/
inductive Effect where
  | g_print (s : String)
  | g_printerr (s : String)
  | dbus_connection_send (conn : Conn) (msg : DBusMessage)
  | dbus_connection_close (conn : Conn)
  | dbus_connection_unref (conn : Conn)
  | dbus_connection_ref (conn : Conn)
  | dbus_connection_setup_with_g_main (conn : Conn)
  | dbus_connection_add_filter (conn : Conn) (f : FilterFn)
  | dbus_connection_set_unix_user_function (conn : Conn)
  | dbus_connection_set_allow_anonymous (conn : Conn) (value : Bool)
  | dbus_g_bus_get (type : DBusBusType)
  | dbus_server_listen (address : String)
  | dbus_server_set_new_connection_function (srv : Server)
  | dbus_server_setup_with_g_main (srv : Server)
  | g_free
  | g_clear_error
  | g_main_loop_new
  | g_main_loop_run
  deriving DecidableEq, Repr

/-- The globals of the program while the callbacks can run: `dbus_conn`
(the connection from a local client, or `NULL`), `master_conn` (set by `main`
before any filter is installed, and `main` returns when it is `NULL`) and
`verbose`. -/
structure Globals where
  dbus_conn : Option Conn
  master_conn : DBusGConnection
  verbose : Bool
  deriving DecidableEq, Repr

/-- How a call of a C function ends: it returns a value (with the globals
and the library calls made), it terminates the process through `exit`, or
it runs into undefined behaviour. -/
inductive Outcome (α : Type) where
  | ret (value : α) (g : Globals) (effs : List Effect)
  | exit (code : Nat) (effs : List Effect)
  | undefined (effs : List Effect)
  deriving DecidableEq, Repr

/-- Results of the library calls a filter branches on:
`dbus_message_append_args` on the reply under construction (FALSE also when
`dbus_message_new_method_return` gave no message) and
`dbus_message_marshal` on the message received. -/
structure Lib where
  append_args_ok : Bool
  marshal_ok : Bool
  deriving DecidableEq, Repr

/-! ## C library functions used by the program -/

/-- C `strcmp`: zero exactly for equal strings, the sign of the
lexicographic order of the characters otherwise; a `NULL` argument is
undefined behaviour (`none`). -/
def strcmp (a : Option String) (b : Option String) : Option Int :=
  match a, b with
  | some x, some y => some (if x = y then 0 else if x.data < y.data then -1 else 1)
  | _, _ => none

/-- C `a && b` where evaluating an operand may be undefined: `b` is
evaluated only when `a` is true. -/
def c_and (a : Option Bool) (b : Option Bool) : Option Bool :=
  match a with
  | none => none
  | some false => some false
  | some true => b

/-- The test `strcmp (a, b) == 0`. -/
def strcmp_eq0 (a : Option String) (b : String) : Option Bool :=
  (strcmp a (some b)).map (fun r => decide (r = 0))

/-- An argument of a printf-style call. -/
inductive PrintfArg where
  | s (v : Option String)
  | d (v : Int)
  deriving DecidableEq, Repr

/-- The printf conversions the program uses: `%s` and `%d`.  A `NULL`
string is printed as `(null)`, as GLib and glibc do. -/
def vprintf : List Char → List PrintfArg → List Char
  | [], _ => []
  | [c], _ => [c]
  | c :: k :: fmt, args =>
    if c = '%' then
      match args with
      | PrintfArg.s v :: rest =>
        if k = 's' then (v.getD "(null)").data ++ vprintf fmt rest
        else c :: vprintf (k :: fmt) args
      | PrintfArg.d v :: rest =>
        if k = 'd' then (toString v).data ++ vprintf fmt rest
        else c :: vprintf (k :: fmt) args
      | [] => c :: vprintf (k :: fmt) args
    else c :: vprintf (k :: fmt) args

/-- GLib `g_strdup_printf`. -/
def g_strdup_printf (fmt : String) (args : List PrintfArg) : String :=
  String.mk (vprintf fmt.data args)

/-- libdbus `dbus_message_new_method_return`: a method-return addressed to
the sender of the call, with the serial of the call as reply serial and an
empty body. -/
def dbus_message_new_method_return (call : DBusMessage) : DBusMessage :=
  { type := DBUS_MESSAGE_TYPE_METHOD_RETURN
    path := none
    interface := none
    member := none
    destination := call.sender
    sender := none
    serial := 0
    reply_serial := some call.serial
    args := [] }

/-- libdbus `dbus_message_append_args` with one `DBUS_TYPE_STRING`
argument, when it succeeds. -/
def dbus_message_append_args (m : DBusMessage) (s : String) : DBusMessage :=
  { m with args := m.args ++ [DBusArg.string s] }

/-! ## The callbacks -/

/-- The diagnostic line both filters print when `verbose` is set. -/
def verbose_line (fmt : String) (msg : DBusMessage) : Effect :=
  Effect.g_print (g_strdup_printf fmt
    [PrintfArg.d msg.type, PrintfArg.s msg.path, PrintfArg.s msg.interface,
     PrintfArg.s msg.member])

/-- The `if (verbose) g_print (...)` at the head of both filters. -/
def verbose_trace (verbose : Bool) (fmt : String) (msg : DBusMessage) : List Effect :=
  if verbose then [verbose_line fmt msg] else []

/-- The condition of the first `if` of `filter_cb` (lines 52-59). -/
def hello_test (msg : DBusMessage) : Option Bool :=
  c_and (some (decide (msg.type = DBUS_MESSAGE_TYPE_METHOD_CALL)))
  (c_and (strcmp_eq0 msg.path "/org/freedesktop/DBus")
  (c_and (strcmp_eq0 msg.interface "org.freedesktop.DBus")
  (c_and (strcmp_eq0 msg.destination "org.freedesktop.DBus")
         (strcmp_eq0 msg.member "Hello"))))

/-- The condition of the second `if` of `filter_cb` (lines 83-86). -/
def disconnected_test (msg : DBusMessage) : Option Bool :=
  c_and (some (decide (msg.type = DBUS_MESSAGE_TYPE_SIGNAL)))
  (c_and (strcmp_eq0 msg.interface "org.freedesktop.DBus.Local")
         (strcmp_eq0 msg.member "Disconnected"))

/-- The function `filter_cb`: the filter installed on the client connection. -/
def filter_cb (g : Globals) (conn : Conn) (msg : DBusMessage) (lib : Lib) :
    Outcome DBusHandlerResult :=
  let e0 := verbose_trace g.verbose
    "New message from client: type='%d' path='%s' iface='%s' member='%s'\n" msg
  match hello_test msg with
  | none => Outcome.undefined e0
  | some true =>
    let dbus_local_name := g.master_conn.unique_name
    let e1 := e0 ++ [Effect.g_print "Hello received\n"]
    let welcome := dbus_message_new_method_return msg
    if lib.append_args_ok = false then
      Outcome.exit 1 (e1 ++ [Effect.g_printerr "Cannot reply to Hello message\n"])
    else
      Outcome.ret DBusHandlerResult.DBUS_HANDLER_RESULT_HANDLED g
        (e1 ++ [Effect.dbus_connection_send conn
                  (dbus_message_append_args welcome dbus_local_name)])
  | some false =>
    match disconnected_test msg with
    | none => Outcome.undefined e0
    | some true =>
      let e1 := e0 ++ [Effect.g_print "connection was disconnected\n"]
      match g.dbus_conn with
      | none => Outcome.undefined e1
      | some c =>
        Outcome.ret DBusHandlerResult.DBUS_HANDLER_RESULT_HANDLED
          { g with dbus_conn := none }
          (e1 ++ [Effect.dbus_connection_close c, Effect.dbus_connection_unref c])
    | some false =>
      if lib.marshal_ok = false then
        Outcome.ret DBusHandlerResult.DBUS_HANDLER_RESULT_HANDLED g e0
      else
        Outcome.ret DBusHandlerResult.DBUS_HANDLER_RESULT_HANDLED g
          (e0 ++ [Effect.dbus_connection_send g.master_conn.conn msg, Effect.g_free])

/-- The function `master_filter_cb`: the filter installed on the connection
to the real bus. -/
def master_filter_cb (g : Globals) (_conn : Conn) (msg : DBusMessage) (lib : Lib) :
    Outcome DBusHandlerResult :=
  match g.dbus_conn with
  | none => Outcome.ret DBusHandlerResult.DBUS_HANDLER_RESULT_HANDLED g []
  | some c =>
    let e0 := verbose_trace g.verbose
      "New message from server: type='%d' path='%s' iface='%s' member='%s'\n" msg
    if lib.marshal_ok = false then
      Outcome.ret DBusHandlerResult.DBUS_HANDLER_RESULT_HANDLED g e0
    else
      Outcome.ret DBusHandlerResult.DBUS_HANDLER_RESULT_HANDLED g
        (e0 ++ [Effect.dbus_connection_send c msg, Effect.g_free])

/-- The function `new_connection_cb`: the accept callback of the listener. -/
def new_connection_cb (g : Globals) (conn : Conn) : Globals × List Effect :=
  if g.dbus_conn ≠ none then
    (g, [Effect.g_printerr "Already connect, reject new connection\n"])
  else
    ({ g with dbus_conn := some conn },
     [Effect.g_print "New connection\n",
      Effect.dbus_connection_ref conn,
      Effect.dbus_connection_setup_with_g_main conn,
      Effect.dbus_connection_add_filter conn FilterFn.filter_cb,
      Effect.dbus_connection_set_unix_user_function conn,
      Effect.dbus_connection_set_allow_anonymous conn true])

/-! ## Start-up -/

/-- The address `start_bus` builds (lines 183-185); `x ?: d` is `x` when it
is not `NULL` and `d` otherwise. -/
def dbus_srv_addr (host bind port family : Option String) : String :=
  g_strdup_printf "tcp:host=%s,bind=%s,port=%s,family=%s"
    [PrintfArg.s (some (host.getD "localhost")), PrintfArg.s (some (bind.getD "*")),
     PrintfArg.s (some (port.getD "8080")), PrintfArg.s (some (family.getD "ipv4"))]

/-- How `start_bus` ends: it returns, or it terminates the process. -/
inductive StartOutcome where
  | returned (effs : List Effect)
  | exited (code : Nat) (effs : List Effect)
  deriving DecidableEq, Repr

/-- The function `start_bus`; `listen` is the result of `dbus_server_listen`
(`none` for `NULL`). -/
def start_bus (host bind port family : Option String) (listen : Option Server) :
    StartOutcome :=
  let addr := dbus_srv_addr host bind port family
  let e0 := [Effect.g_print (g_strdup_printf "Listen on address: %s\n" [PrintfArg.s (some addr)]),
             Effect.dbus_server_listen addr]
  match listen with
  | none =>
    StartOutcome.exited 1
      (e0 ++ [Effect.g_printerr
                (g_strdup_printf "Cannot listen on '%s'\n" [PrintfArg.s (some addr)])])
  | some srv =>
    StartOutcome.returned
      (e0 ++ [Effect.g_free,
              Effect.dbus_server_set_new_connection_function srv,
              Effect.dbus_server_setup_with_g_main srv])

/-- The locals of `main` that the argument loop sets, and `verbose`. -/
structure Options where
  type : DBusBusType
  address : Option String
  host : Option String
  bind : Option String
  port : Option String
  family : Option String
  verbose : Bool
  deriving DecidableEq, Repr

/-- The values before the argument loop (lines 219-224 and 33). -/
def Options.default : Options :=
  { type := DBusBusType.DBUS_BUS_SESSION, address := none, host := none, bind := none,
    port := none, family := none, verbose := false }

/-- The argument loop of `main` (lines 229-291) over `argv[i..]`; `none`
when it calls `usage`. -/
def parse_args : List String → Options → Option Options
  | [], o => some o
  | [arg], o =>
    if arg = "--system" then some { o with type := DBusBusType.DBUS_BUS_SYSTEM }
    else if arg = "--session" then some { o with type := DBusBusType.DBUS_BUS_SESSION }
    else if arg = "--address" then none
    else if arg = "--host" then none
    else if arg = "--bind" then none
    else if arg = "--port" then none
    else if arg = "--family" then none
    else if arg = "--verbose" then some { o with verbose := true }
    else none
  | arg :: next :: rest, o =>
    if arg = "--system" then
      parse_args (next :: rest) { o with type := DBusBusType.DBUS_BUS_SYSTEM }
    else if arg = "--session" then
      parse_args (next :: rest) { o with type := DBusBusType.DBUS_BUS_SESSION }
    else if arg = "--address" then parse_args rest { o with address := some next }
    else if arg = "--host" then parse_args rest { o with host := some next }
    else if arg = "--bind" then parse_args rest { o with bind := some next }
    else if arg = "--port" then parse_args rest { o with port := some next }
    else if arg = "--family" then parse_args rest { o with family := some next }
    else if arg = "--verbose" then parse_args (next :: rest) { o with verbose := true }
    else none

/-- The function `usage`: it prints and terminates the process. -/
def usage (name : String) : List Effect :=
  [Effect.g_printerr
     (g_strdup_printf "Usage: %s [--system | --session | --address ADDRESS]\n"
        [PrintfArg.s (some name)]),
   Effect.g_printerr "        [--host <host>]\n",
   Effect.g_printerr "        [--bind <bind>]\n",
   Effect.g_printerr "        [--port <port>]\n",
   Effect.g_printerr "        [--family <family>]\n",
   Effect.g_printerr "\n",
   Effect.g_printerr "port\n"]

/-- How `main` ends: it returns a status, it terminates the process through
`exit`, or it enters the main loop (which nothing quits). -/
inductive MainOutcome where
  | returned (code : Nat) (effs : List Effect)
  | exited (code : Nat) (effs : List Effect)
  | running (g : Globals) (effs : List Effect)
  deriving DecidableEq, Repr

/-- The function `main`.  `bus` is the result of `dbus_g_bus_get` (`none`
for `NULL`, with `errmsg` the message of the error it sets) and `listen` the
result of `dbus_server_listen`. -/
def main (argv0 : String) (args : List String) (bus : Option DBusGConnection)
    (errmsg : String) (listen : Option Server) : MainOutcome :=
  match parse_args args Options.default with
  | none => MainOutcome.exited 1 (usage argv0)
  | some o =>
    let e0 := [Effect.dbus_g_bus_get o.type]
    match bus with
    | none =>
      MainOutcome.returned 1
        (e0 ++ [Effect.g_printerr
                  (g_strdup_printf "Failed to open connection to session bus: %s\n"
                     [PrintfArg.s (some errmsg)]),
                Effect.g_clear_error])
    | some master =>
      let e1 := e0 ++ [Effect.dbus_connection_add_filter master.conn FilterFn.master_filter_cb]
      match start_bus o.host o.bind o.port o.family listen with
      | StartOutcome.exited code e2 => MainOutcome.exited code (e1 ++ e2)
      | StartOutcome.returned e2 =>
        MainOutcome.running
          { dbus_conn := none, master_conn := master, verbose := o.verbose }
          (e1 ++ e2 ++ [Effect.g_main_loop_new, Effect.g_main_loop_run])

/-! ## The event loop -/

/-- What the main loop dispatches: an accepted connection, a message on a
client connection, a message on the connection to the real bus.  The `Lib`
of a message event is how the library calls of that dispatch turn out. -/
inductive Event where
  | accept (conn : Conn)
  | client_msg (conn : Conn) (msg : DBusMessage) (lib : Lib)
  | master_msg (msg : DBusMessage) (lib : Lib)
  deriving DecidableEq, Repr

/-- The running process: its globals and the library calls made so far. -/
structure Sys where
  g : Globals
  trace : List Effect
  deriving DecidableEq, Repr

/-- One library call seen as a change of the set of client sessions:
installing `filter_cb` on a connection opens one, closing the connection
ends it. -/
def session_step (acc : List Conn) : Effect → List Conn
  | Effect.dbus_connection_add_filter c FilterFn.filter_cb => c :: acc
  | Effect.dbus_connection_close c => acc.filter (fun x => decide (x ≠ c))
  | _ => acc

/-- The Active client sessions after a trace: the connections that got
`filter_cb` installed and have not been closed since. -/
def active_sessions (trace : List Effect) : List Conn :=
  trace.foldl session_step []

/-- One dispatch of the main loop.  libdbus runs `filter_cb` only on a
connection it is installed on, so a client message on another connection is
not an event of the process (`none`); `none` also when the callback does not
return (the process terminated or its behaviour is undefined). -/
def step (s : Sys) : Event → Option Sys
  | Event.accept conn =>
    some { g := (new_connection_cb s.g conn).1,
           trace := s.trace ++ (new_connection_cb s.g conn).2 }
  | Event.client_msg conn msg lib =>
    if conn ∈ active_sessions s.trace then
      match filter_cb s.g conn msg lib with
      | Outcome.ret _ g effs => some { g := g, trace := s.trace ++ effs }
      | _ => none
    else none
  | Event.master_msg msg lib =>
    match master_filter_cb s.g s.g.master_conn.conn msg lib with
    | Outcome.ret _ g effs => some { g := g, trace := s.trace ++ effs }
    | _ => none

/-- Dispatch a sequence of events. -/
def run (s : Sys) : List Event → Option Sys
  | [] => some s
  | ev :: evs =>
    match step s ev with
    | none => none
    | some s1 => run s1 evs

/-- The process when `main` has entered the main loop: no client session
yet. -/
def boot (master : DBusGConnection) (verbose : Bool) : Sys :=
  { g := { dbus_conn := none, master_conn := master, verbose := verbose }, trace := [] }

/-- Dispatch a sequence of accept events, keeping for each the globals
after it and the library calls it made. -/
def accept_all (g : Globals) : List Conn → List (Globals × List Effect)
  | [] => []
  | c :: cs => new_connection_cb g c :: accept_all (new_connection_cb g c).1 cs

/-! ## Reading a trace -/

/-- The messages handed to `dbus_connection_send`, with the connection each
was sent on. -/
def sends : List Effect → List (Conn × DBusMessage)
  | [] => []
  | Effect.dbus_connection_send c m :: rest => (c, m) :: sends rest
  | _ :: rest => sends rest

/-- The addresses handed to `dbus_server_listen`. -/
def listens : List Effect → List String
  | [] => []
  | Effect.dbus_server_listen a :: rest => a :: listens rest
  | _ :: rest => listens rest

/-- The servers an accept callback was registered on. -/
def accept_registrations : List Effect → List Server
  | [] => []
  | Effect.dbus_server_set_new_connection_function srv :: rest =>
    srv :: accept_registrations rest
  | _ :: rest => accept_registrations rest

/-- The effects of an outcome. -/
def Outcome.effects {α : Type} : Outcome α → List Effect
  | Outcome.ret _ _ effs => effs
  | Outcome.exit _ effs => effs
  | Outcome.undefined effs => effs

/-- The effects of a run of `start_bus`. -/
def StartOutcome.effects : StartOutcome → List Effect
  | StartOutcome.returned effs => effs
  | StartOutcome.exited _ effs => effs

/-- The effects of a run of `main`. -/
def MainOutcome.effects : MainOutcome → List Effect
  | MainOutcome.returned _ effs => effs
  | MainOutcome.exited _ effs => effs
  | MainOutcome.running _ effs => effs

/-! ## Message kinds named by the specification -/

/-- The Hello method-call: a method-call on the bus daemon object, interface
and destination with member Hello. -/
def IsHello (msg : DBusMessage) : Prop :=
  msg.type = DBUS_MESSAGE_TYPE_METHOD_CALL ∧
  msg.path = some "/org/freedesktop/DBus" ∧
  msg.interface = some "org.freedesktop.DBus" ∧
  msg.destination = some "org.freedesktop.DBus" ∧
  msg.member = some "Hello"

/-- The local disconnect notification: signal Disconnected of interface
org.freedesktop.DBus.Local. -/
def IsDisconnected (msg : DBusMessage) : Prop :=
  msg.type = DBUS_MESSAGE_TYPE_SIGNAL ∧
  msg.interface = some "org.freedesktop.DBus.Local" ∧
  msg.member = some "Disconnected"

/-- The header fields the D-Bus protocol requires for each message type, as
libdbus checks them on every message it receives: a method-call has a path
and a member, a signal a path, an interface and a member, a reply the
serial it replies to.  Interface and destination of a method-call are
optional. -/
def WellFormed (msg : DBusMessage) : Prop :=
  (msg.type = DBUS_MESSAGE_TYPE_METHOD_CALL → msg.path ≠ none ∧ msg.member ≠ none) ∧
  (msg.type = DBUS_MESSAGE_TYPE_SIGNAL →
    msg.path ≠ none ∧ msg.interface ≠ none ∧ msg.member ≠ none) ∧
  (msg.type = DBUS_MESSAGE_TYPE_METHOD_RETURN → msg.reply_serial ≠ none) ∧
  (msg.type = DBUS_MESSAGE_TYPE_ERROR → msg.reply_serial ≠ none)

instance (msg : DBusMessage) : Decidable (WellFormed msg) := by
  unfold WellFormed; infer_instance

instance (msg : DBusMessage) : Decidable (IsHello msg) := by
  unfold IsHello; infer_instance

instance (msg : DBusMessage) : Decidable (IsDisconnected msg) := by
  unfold IsDisconnected; infer_instance

/-! ## Vocabulary of the statements -/

/-- Number of calls of `dbus_connection_close` on `c` in a trace. -/
def closes (c : Conn) (effs : List Effect) : Nat :=
  effs.count (Effect.dbus_connection_close c)

/-- Number of calls of `dbus_connection_unref` on `c` in a trace. -/
def unrefs (c : Conn) (effs : List Effect) : Nat :=
  effs.count (Effect.dbus_connection_unref c)

/-- What an admitted accept of `c` does. -/
def admit_effects (c : Conn) : List Effect :=
  [Effect.g_print "New connection\n",
   Effect.dbus_connection_ref c,
   Effect.dbus_connection_setup_with_g_main c,
   Effect.dbus_connection_add_filter c FilterFn.filter_cb,
   Effect.dbus_connection_set_unix_user_function c,
   Effect.dbus_connection_set_allow_anonymous c true]

/-- What a refused accept does: one diagnostic, no call on the connection. -/
def refuse_effects : List Effect :=
  [Effect.g_printerr "Already connect, reject new connection\n"]

/-- The Active sessions are exactly the connection in `dbus_conn`, if any. -/
def SessionInv (s : Sys) : Prop :=
  active_sessions s.trace = s.g.dbus_conn.toList

/-- Whether an event is the disconnect notification on a client connection. -/
def Event.isDisconnect : Event → Prop
  | Event.client_msg _ msg _ => IsDisconnected msg
  | _ => False

/-! ## Concrete inputs -/

/-- Globals with an Active session on connection 7, upstream connection 1
named `:1.42`. -/
def g_active : Globals :=
  { dbus_conn := some 7, master_conn := { conn := 1, unique_name := ":1.42" },
    verbose := false }

/-- Globals with no client session. -/
def g_idle : Globals :=
  { dbus_conn := none, master_conn := { conn := 1, unique_name := ":1.42" },
    verbose := false }

/-- A Hello call as a client sends it. -/
def msg_hello : DBusMessage :=
  { type := DBUS_MESSAGE_TYPE_METHOD_CALL, path := some "/org/freedesktop/DBus",
    interface := some "org.freedesktop.DBus", member := some "Hello",
    destination := some "org.freedesktop.DBus", sender := none, serial := 1,
    reply_serial := none, args := [] }

/-- The signal libdbus delivers when the transport of a connection is gone. -/
def msg_disconnected : DBusMessage :=
  { type := DBUS_MESSAGE_TYPE_SIGNAL, path := some "/org/freedesktop/DBus/Local",
    interface := some "org.freedesktop.DBus.Local", member := some "Disconnected",
    destination := none, sender := none, serial := 0, reply_serial := none, args := [] }

/-- An ordinary signal. -/
def msg_signal : DBusMessage :=
  { type := DBUS_MESSAGE_TYPE_SIGNAL, path := some "/com/example/Foo",
    interface := some "com.example.Foo", member := some "Bar",
    destination := none, sender := some ":1.42", serial := 5, reply_serial := none,
    args := [DBusArg.uint32 3] }

/-- A method-call on the bus daemon object that names no interface (the
interface of a method-call is optional in the D-Bus protocol). -/
def msg_no_interface : DBusMessage :=
  { type := DBUS_MESSAGE_TYPE_METHOD_CALL, path := some "/org/freedesktop/DBus",
    interface := none, member := some "ListNames",
    destination := some "org.freedesktop.DBus", sender := none, serial := 2,
    reply_serial := none, args := [] }

/-- A method-call on the bus daemon object and interface that names no
destination. -/
def msg_no_destination : DBusMessage :=
  { type := DBUS_MESSAGE_TYPE_METHOD_CALL, path := some "/org/freedesktop/DBus",
    interface := some "org.freedesktop.DBus", member := some "Hello",
    destination := none, sender := none, serial := 1, reply_serial := none, args := [] }

/-- A session of the relay: a client connects and says Hello, a second client
is refused, a signal passes in each direction, the first client goes away
and a third one is admitted. -/
def demo_events : List Event :=
  [Event.accept 7,
   Event.client_msg 7 msg_hello ⟨true, true⟩,
   Event.accept 8,
   Event.client_msg 7 msg_signal ⟨true, true⟩,
   Event.master_msg msg_signal ⟨true, true⟩,
   Event.client_msg 7 msg_disconnected ⟨true, true⟩,
   Event.accept 9]

/-! ## Lemmas on the library model -/

theorem strcmp_eq0_some (a b : String) :
    strcmp_eq0 (some a) b = some (decide (a = b)) := by
  unfold strcmp_eq0 strcmp
  by_cases h : a = b
  · simp [h]
  · by_cases h2 : a.data < b.data <;> simp [h, h2]

theorem strcmp_eq0_none (b : String) : strcmp_eq0 none b = none := rfl

theorem c_and_eq_true (a b : Option Bool) :
    c_and a b = some true ↔ a = some true ∧ b = some true := by
  rcases a with _ | _ | _ <;> simp [c_and]

theorem strcmp_eq0_eq_true (a : Option String) (b : String) :
    strcmp_eq0 a b = some true ↔ a = some b := by
  rcases a with _ | a
  · simp [strcmp_eq0_none]
  · simp [strcmp_eq0_some]

theorem hello_test_eq_true (msg : DBusMessage) :
    hello_test msg = some true ↔ IsHello msg := by
  simp [hello_test, IsHello, c_and_eq_true, strcmp_eq0_eq_true]

theorem disconnected_test_eq_true (msg : DBusMessage) :
    disconnected_test msg = some true ↔ IsDisconnected msg := by
  simp [disconnected_test, IsDisconnected, c_and_eq_true, strcmp_eq0_eq_true]

/-- A signal is never taken for the Hello call: the type test fails first and
no string is compared. -/
theorem hello_test_of_type_ne (msg : DBusMessage)
    (h : msg.type ≠ DBUS_MESSAGE_TYPE_METHOD_CALL) : hello_test msg = some false := by
  simp [hello_test, h, c_and]

theorem hello_test_of_isDisconnected (msg : DBusMessage) (h : IsDisconnected msg) :
    hello_test msg = some false := by
  apply hello_test_of_type_ne
  rw [h.1]
  decide

/-- On a message libdbus delivers, the disconnect test compares no absent
field. -/
theorem disconnected_test_defined (msg : DBusMessage) (hw : WellFormed msg) :
    disconnected_test msg ≠ none := by
  obtain ⟨-, hs, -, -⟩ := hw
  by_cases ht : msg.type = DBUS_MESSAGE_TYPE_SIGNAL
  · obtain ⟨-, hi, hm⟩ := hs ht
    obtain ⟨i, hi⟩ := Option.ne_none_iff_exists'.1 hi
    obtain ⟨m, hm⟩ := Option.ne_none_iff_exists'.1 hm
    by_cases h : i = "org.freedesktop.DBus.Local" <;>
      simp [disconnected_test, ht, hi, hm, h, strcmp_eq0_some, c_and]
  · simp [disconnected_test, ht, c_and]

/-- On a message libdbus delivers, the Hello test is undefined exactly for a
method-call on `/org/freedesktop/DBus` whose interface is absent, or whose
interface is `org.freedesktop.DBus` and whose destination is absent. -/
theorem hello_test_undefined_iff (msg : DBusMessage) (hw : WellFormed msg) :
    hello_test msg = none ↔
      msg.type = DBUS_MESSAGE_TYPE_METHOD_CALL ∧
      msg.path = some "/org/freedesktop/DBus" ∧
      (msg.interface = none ∨
        (msg.interface = some "org.freedesktop.DBus" ∧ msg.destination = none)) := by
  obtain ⟨hc, -, -, -⟩ := hw
  by_cases ht : msg.type = DBUS_MESSAGE_TYPE_METHOD_CALL
  · obtain ⟨hp, hm⟩ := hc ht
    obtain ⟨p, hp⟩ := Option.ne_none_iff_exists'.1 hp
    obtain ⟨m, hm⟩ := Option.ne_none_iff_exists'.1 hm
    by_cases h1 : p = "/org/freedesktop/DBus"
    · rcases hi : msg.interface with _ | i
      · simp [hello_test, ht, hp, hm, hi, h1, strcmp_eq0_some, strcmp_eq0_none, c_and]
      · by_cases h2 : i = "org.freedesktop.DBus"
        · rcases hd : msg.destination with _ | d
          · simp [hello_test, ht, hp, hm, hi, hd, h1, h2, strcmp_eq0_some,
              strcmp_eq0_none, c_and]
          · by_cases h3 : d = "org.freedesktop.DBus" <;>
              simp [hello_test, ht, hp, hm, hi, hd, h1, h2, h3, strcmp_eq0_some, c_and]
        · simp [hello_test, ht, hp, hm, hi, h1, h2, strcmp_eq0_some, c_and]
    · simp [hello_test, ht, hp, hm, h1, strcmp_eq0_some, c_and]
  · simp [hello_test, ht, c_and]

theorem sends_append (a b : List Effect) : sends (a ++ b) = sends a ++ sends b := by
  induction a with
  | nil => rfl
  | cons e rest ih => cases e <;> simp [sends, ih]

theorem listens_append (a b : List Effect) :
    listens (a ++ b) = listens a ++ listens b := by
  induction a with
  | nil => rfl
  | cons e rest ih => cases e <;> simp [listens, ih]

theorem sends_verbose (b : Bool) (fmt : String) (msg : DBusMessage) :
    sends (verbose_trace b fmt msg) = [] := by
  cases b <;> rfl

/-! ## Handshake substitution -/

/-- C2, as amended: for every Hello method-call received by `filter_cb`, when
`dbus_message_append_args` succeeds the filter sends exactly one message, on
the connection the call came from; it is the method-return to the call
(reply serial the serial of the call, addressed to its sender) whose sole
argument is the unique name of the upstream connection; the globals are
unchanged and the filter returns handled.  When `dbus_message_append_args`
fails the filter sends nothing and terminates the process with status 1. -/
theorem filter_cb_hello (g : Globals) (conn : Conn) (msg : DBusMessage) (lib : Lib)
    (h : IsHello msg) :
    (lib.append_args_ok = true →
      ∃ effs reply,
        filter_cb g conn msg lib =
          Outcome.ret DBusHandlerResult.DBUS_HANDLER_RESULT_HANDLED g effs ∧
        sends effs = [(conn, reply)] ∧
        reply.type = DBUS_MESSAGE_TYPE_METHOD_RETURN ∧
        reply.reply_serial = some msg.serial ∧
        reply.destination = msg.sender ∧
        reply.args = [DBusArg.string g.master_conn.unique_name]) ∧
    (lib.append_args_ok = false →
      ∃ effs, filter_cb g conn msg lib = Outcome.exit 1 effs ∧ sends effs = []) := by
  have ht := (hello_test_eq_true msg).2 h
  constructor
  · intro hok
    refine ⟨(filter_cb g conn msg lib).effects,
      dbus_message_append_args (dbus_message_new_method_return msg)
        g.master_conn.unique_name, ?_, ?_, rfl, rfl, rfl, rfl⟩
    · simp [filter_cb, ht, hok, Outcome.effects]
    · simp [filter_cb, ht, hok, Outcome.effects, sends_append, sends_verbose, sends]
  · intro hok
    refine ⟨(filter_cb g conn msg lib).effects, ?_, ?_⟩
    · simp [filter_cb, ht, hok, Outcome.effects]
    · simp [filter_cb, ht, hok, Outcome.effects, sends_append, sends_verbose, sends]

/-- Witness of C2: the Hello call of a client on connection 7 is answered on
connection 7 with the upstream name. -/
theorem filter_cb_hello_witness :
    IsHello msg_hello ∧
    (∃ effs reply,
        filter_cb g_active 7 msg_hello ⟨true, true⟩ =
          Outcome.ret DBusHandlerResult.DBUS_HANDLER_RESULT_HANDLED g_active effs ∧
        sends effs = [(7, reply)] ∧
        reply.type = DBUS_MESSAGE_TYPE_METHOD_RETURN ∧
        reply.reply_serial = some msg_hello.serial ∧
        reply.destination = msg_hello.sender ∧
        reply.args = [DBusArg.string g_active.master_conn.unique_name]) ∧
    (∃ effs, filter_cb g_active 7 msg_hello ⟨false, true⟩ = Outcome.exit 1 effs ∧
        sends effs = []) :=
  ⟨by decide,
   (filter_cb_hello g_active 7 msg_hello ⟨true, true⟩ (by decide)).1 rfl,
   (filter_cb_hello g_active 7 msg_hello ⟨false, true⟩ (by decide)).2 rfl⟩

/-- Counterexample to C2 as stated: a Hello call for which
`dbus_message_append_args` fails is answered by no message at all; the
filter calls `exit (1)`. -/
theorem filter_cb_hello_no_reply :
    IsHello msg_hello ∧
    filter_cb g_active 7 msg_hello ⟨false, true⟩ =
      Outcome.exit 1 [Effect.g_print "Hello received\n",
                      Effect.g_printerr "Cannot reply to Hello message\n"] ∧
    sends (filter_cb g_active 7 msg_hello ⟨false, true⟩).effects = [] := by
  decide

/-! ## Forwarding, client to upstream -/

/-- The default step of `filter_cb`: a message for which both tests come out
false and that marshals is sent, as it is, on the upstream connection and on
no other; the globals are unchanged. -/
theorem filter_cb_forward (g : Globals) (conn : Conn) (msg : DBusMessage) (lib : Lib)
    (h1 : hello_test msg = some false) (h2 : disconnected_test msg = some false)
    (hm : lib.marshal_ok = true) :
    filter_cb g conn msg lib =
        Outcome.ret DBusHandlerResult.DBUS_HANDLER_RESULT_HANDLED g
          (filter_cb g conn msg lib).effects ∧
      sends (filter_cb g conn msg lib).effects = [(g.master_conn.conn, msg)] := by
  constructor
  · simp [filter_cb, h1, h2, hm, Outcome.effects]
  · simp [filter_cb, h1, h2, hm, Outcome.effects, sends_append, sends_verbose, sends]

/-- C3 at its failing input: a method-call on `/org/freedesktop/DBus` without
interface is a message libdbus delivers, is neither the Hello call nor the
disconnect notification, and it marshals, yet `filter_cb` does not forward
it: the Hello test hands the
absent interface to `strcmp`, which is undefined, and nothing has been sent. -/
theorem filter_cb_no_interface_not_forwarded :
    WellFormed msg_no_interface ∧
    ¬ IsHello msg_no_interface ∧ ¬ IsDisconnected msg_no_interface ∧
    g_active.dbus_conn = some 7 ∧
    filter_cb g_active 7 msg_no_interface ⟨true, true⟩ = Outcome.undefined [] ∧
    sends (filter_cb g_active 7 msg_no_interface ⟨true, true⟩).effects = [] := by
  decide

/-! ## Forwarding, upstream to client -/

/-- C4: for every message received by `master_filter_cb` while a client
session is Active (`dbus_conn` is the connection `c`) and that marshals, the
filter sends exactly that message, unmodified, on `c` and nothing on any
other connection, returns handled and leaves the globals as they are, so the
session stays Active.  The message is arbitrary: a Hello call and the
Disconnected signal are forwarded like any other. -/
theorem master_filter_cb_forward (g : Globals) (c conn : Conn) (msg : DBusMessage)
    (lib : Lib) (hc : g.dbus_conn = some c) (hm : lib.marshal_ok = true) :
    ∃ effs,
      master_filter_cb g conn msg lib =
        Outcome.ret DBusHandlerResult.DBUS_HANDLER_RESULT_HANDLED g effs ∧
      sends effs = [(c, msg)] := by
  refine ⟨(master_filter_cb g conn msg lib).effects, ?_, ?_⟩
  · simp [master_filter_cb, hc, hm, Outcome.effects]
  · simp [master_filter_cb, hc, hm, Outcome.effects, sends_append, sends_verbose, sends]

/-- Witness of C4: a Hello call coming from the bus is forwarded to the
client on connection 7. -/
theorem master_filter_cb_forward_witness :
    ∃ effs,
      master_filter_cb g_active 1 msg_hello ⟨true, true⟩ =
        Outcome.ret DBusHandlerResult.DBUS_HANDLER_RESULT_HANDLED g_active effs ∧
      sends effs = [(7, msg_hello)] :=
  master_filter_cb_forward g_active 7 1 msg_hello ⟨true, true⟩ rfl rfl

/-! ## Disconnect and re-admission -/

theorem count_verbose_close (b : Bool) (fmt : String) (msg : DBusMessage) (c : Conn) :
    (verbose_trace b fmt msg).count (Effect.dbus_connection_close c) = 0 := by
  cases b <;> simp [verbose_trace, verbose_line]

theorem count_verbose_unref (b : Bool) (fmt : String) (msg : DBusMessage) (c : Conn) :
    (verbose_trace b fmt msg).count (Effect.dbus_connection_unref c) = 0 := by
  cases b <;> simp [verbose_trace, verbose_line]

/-- C5: in every state with an Active session on `c`, when `filter_cb`
receives the Disconnected signal of `org.freedesktop.DBus.Local` it returns
handled, `c` is closed once and unreferenced once, `dbus_conn` becomes
`NULL`, and nothing is sent on any connection; the next accept event is then
admitted: the new connection becomes `dbus_conn`, is referenced and gets
`filter_cb` installed. -/
theorem filter_cb_disconnect_then_accept (g : Globals) (c conn next : Conn)
    (msg : DBusMessage) (lib : Lib) (hc : g.dbus_conn = some c)
    (hd : IsDisconnected msg) :
    ∃ g1 effs,
      filter_cb g conn msg lib =
        Outcome.ret DBusHandlerResult.DBUS_HANDLER_RESULT_HANDLED g1 effs ∧
      g1 = { g with dbus_conn := none } ∧
      closes c effs = 1 ∧ unrefs c effs = 1 ∧ sends effs = [] ∧
      (new_connection_cb g1 next).1 = { g with dbus_conn := some next } ∧
      Effect.dbus_connection_ref next ∈ (new_connection_cb g1 next).2 ∧
      Effect.dbus_connection_add_filter next FilterFn.filter_cb ∈
        (new_connection_cb g1 next).2 := by
  have h1 := hello_test_of_isDisconnected msg hd
  have h2 := (disconnected_test_eq_true msg).2 hd
  refine ⟨{ g with dbus_conn := none }, (filter_cb g conn msg lib).effects, ?_, rfl,
    ?_, ?_, ?_, ?_, ?_, ?_⟩
  · simp [filter_cb, h1, h2, hc, Outcome.effects]
  · simp [filter_cb, h1, h2, hc, Outcome.effects, closes, count_verbose_close]
  · simp [filter_cb, h1, h2, hc, Outcome.effects, unrefs, count_verbose_unref]
  · simp [filter_cb, h1, h2, hc, Outcome.effects, sends_append, sends_verbose, sends]
  · simp [new_connection_cb]
  · simp [new_connection_cb]
  · simp [new_connection_cb]

/-- Witness of C5: the session on connection 7 is torn down and connection 9
is admitted next. -/
theorem filter_cb_disconnect_then_accept_witness :
    ∃ g1 effs,
      filter_cb g_active 7 msg_disconnected ⟨true, true⟩ =
        Outcome.ret DBusHandlerResult.DBUS_HANDLER_RESULT_HANDLED g1 effs ∧
      g1 = { g_active with dbus_conn := none } ∧
      closes 7 effs = 1 ∧ unrefs 7 effs = 1 ∧ sends effs = [] ∧
      (new_connection_cb g1 9).1 = { g_active with dbus_conn := some 9 } ∧
      Effect.dbus_connection_ref 9 ∈ (new_connection_cb g1 9).2 ∧
      Effect.dbus_connection_add_filter 9 FilterFn.filter_cb ∈
        (new_connection_cb g1 9).2 :=
  filter_cb_disconnect_then_accept g_active 7 7 9 msg_disconnected ⟨true, true⟩ rfl
    (by decide)

/-! ## Drops -/

/-- C6: for every message received by `master_filter_cb` while `dbus_conn`
is `NULL`, the filter makes no library call at all (so nothing is sent on
any connection), leaves the globals as they are (no session), and returns
handled: it neither exits nor runs into undefined behaviour. -/
theorem master_filter_cb_no_session (g : Globals) (conn : Conn) (msg : DBusMessage)
    (lib : Lib) (hc : g.dbus_conn = none) :
    master_filter_cb g conn msg lib =
      Outcome.ret DBusHandlerResult.DBUS_HANDLER_RESULT_HANDLED g [] := by
  simp [master_filter_cb, hc]

/-- Witness of C6: a signal from the bus with no client connected. -/
theorem master_filter_cb_no_session_witness :
    master_filter_cb g_idle 1 msg_signal ⟨true, true⟩ =
      Outcome.ret DBusHandlerResult.DBUS_HANDLER_RESULT_HANDLED g_idle [] :=
  master_filter_cb_no_session g_idle 1 msg_signal ⟨true, true⟩ rfl

/-- The drop at the marshal step: when the Hello test and the disconnect
test of `filter_cb` both come out false, or `dbus_conn` is not `NULL` in
`master_filter_cb`, and `dbus_message_marshal` fails, the filter returns
handled with the globals unchanged, and it has sent nothing. -/
theorem marshal_failure_drops (g : Globals) (conn : Conn) (msg : DBusMessage) (lib : Lib)
    (hm : lib.marshal_ok = false) :
    (hello_test msg = some false → disconnected_test msg = some false →
      ∃ effs,
        filter_cb g conn msg lib =
          Outcome.ret DBusHandlerResult.DBUS_HANDLER_RESULT_HANDLED g effs ∧
        sends effs = []) ∧
    (g.dbus_conn ≠ none →
      ∃ effs,
        master_filter_cb g conn msg lib =
          Outcome.ret DBusHandlerResult.DBUS_HANDLER_RESULT_HANDLED g effs ∧
        sends effs = []) := by
  constructor
  · intro h1 h2
    refine ⟨(filter_cb g conn msg lib).effects, ?_, ?_⟩
    · simp [filter_cb, h1, h2, hm, Outcome.effects]
    · simp [filter_cb, h1, h2, hm, Outcome.effects, sends_verbose]
  · intro hc
    obtain ⟨c, hc⟩ := Option.ne_none_iff_exists'.1 hc
    refine ⟨(master_filter_cb g conn msg lib).effects, ?_, ?_⟩
    · simp [master_filter_cb, hc, hm, Outcome.effects]
    · simp [master_filter_cb, hc, hm, Outcome.effects, sends_verbose]

/-- The drop at the marshal step on an ordinary signal that fails to
marshal, in either direction, with a session on connection 7. -/
theorem marshal_failure_drops_witness :
    (hello_test msg_signal = some false ∧ disconnected_test msg_signal = some false ∧
      ∃ effs,
        filter_cb g_active 7 msg_signal ⟨true, false⟩ =
          Outcome.ret DBusHandlerResult.DBUS_HANDLER_RESULT_HANDLED g_active effs ∧
        sends effs = []) ∧
    (g_active.dbus_conn ≠ none ∧
      ∃ effs,
        master_filter_cb g_active 1 msg_signal ⟨true, false⟩ =
          Outcome.ret DBusHandlerResult.DBUS_HANDLER_RESULT_HANDLED g_active effs ∧
        sends effs = []) :=
  ⟨⟨by decide, by decide,
    (marshal_failure_drops g_active 7 msg_signal ⟨true, false⟩ rfl).1
      (by decide) (by decide)⟩,
   ⟨by decide,
    (marshal_failure_drops g_active 1 msg_signal ⟨true, false⟩ rfl).2 (by decide)⟩⟩

/-- C10 at its failing inputs: for a method-call on `/org/freedesktop/DBus`
whose interface is absent, and for one on that path and interface whose
destination is absent (both are messages libdbus delivers), the Hello test compares the absent field: its value
is undefined, and so is the outcome of `filter_cb`, which reaches none of
its three branches. -/
theorem hello_test_compares_absent_field :
    WellFormed msg_no_interface ∧ WellFormed msg_no_destination ∧
    hello_test msg_no_interface = none ∧
    hello_test msg_no_destination = none ∧
    filter_cb g_active 7 msg_no_interface ⟨true, true⟩ = Outcome.undefined [] ∧
    filter_cb g_active 7 msg_no_destination ⟨true, true⟩ = Outcome.undefined [] := by
  decide

/-! ## The listening address -/

theorem dbus_srv_addr_eq (host bind port family : Option String) :
    dbus_srv_addr host bind port family =
      "tcp:host=" ++ host.getD "localhost" ++ ",bind=" ++ bind.getD "*" ++
        ",port=" ++ port.getD "8080" ++ ",family=" ++ family.getD "ipv4" := by
  apply String.ext
  simp [dbus_srv_addr, g_strdup_printf, vprintf]

/-- C8: for every host, bind, port and family handed to `start_bus`, each
present or absent, `dbus_server_listen` is called exactly once and its
address is `tcp:host=H,bind=B,port=P,family=F` where each component is the
given value when present and the default (`localhost`, `*`, `8080`, `ipv4`)
when absent; with all four absent it is
`tcp:host=localhost,bind=*,port=8080,family=ipv4`.  This holds whether the
listen call succeeds or not. -/
theorem start_bus_listen_address (host bind port family : Option String)
    (listen : Option Server) :
    listens (start_bus host bind port family listen).effects =
      ["tcp:host=" ++ host.getD "localhost" ++ ",bind=" ++ bind.getD "*" ++
        ",port=" ++ port.getD "8080" ++ ",family=" ++ family.getD "ipv4"] ∧
    listens (start_bus none none none none listen).effects =
      ["tcp:host=localhost,bind=*,port=8080,family=ipv4"] := by
  have key : ∀ h b p f : Option String,
      listens (start_bus h b p f listen).effects = [dbus_srv_addr h b p f] := by
    intro h b p f
    cases listen <;> simp [start_bus, StartOutcome.effects, listens]
  constructor
  · rw [key, dbus_srv_addr_eq]
  · rw [key, dbus_srv_addr_eq]
    decide

/-! ## Start-up order -/

theorem start_bus_effects (host bind port family : Option String) (listen : Option Server) :
    ∃ post,
      (start_bus host bind port family listen).effects =
        Effect.g_print (g_strdup_printf "Listen on address: %s\n"
            [PrintfArg.s (some (dbus_srv_addr host bind port family))]) ::
          Effect.dbus_server_listen (dbus_srv_addr host bind port family) :: post ∧
      listens post = [] := by
  cases listen with
  | none => exact ⟨_, rfl, rfl⟩
  | some srv => exact ⟨_, rfl, rfl⟩

/-- C9: for every argument list the loop of `main` accepts, `main` first
calls `dbus_g_bus_get`.  When that fails, `main` returns 1 and has neither
called `dbus_server_listen` nor registered an accept callback.  When it
succeeds, the calls of `main` are, in this order, `dbus_g_bus_get`, the
installation of `master_filter_cb` on the upstream connection, a print, and
only then the one call of `dbus_server_listen`; no accept callback is
registered before that call. -/
theorem main_startup_order (argv0 : String) (args : List String) (o : Options)
    (errmsg : String) (listen : Option Server)
    (hv : parse_args args Options.default = some o) :
    (∃ effs,
      main argv0 args none errmsg listen = MainOutcome.returned 1 effs ∧
      effs.head? = some (Effect.dbus_g_bus_get o.type) ∧
      listens effs = [] ∧ accept_registrations effs = []) ∧
    (∀ master : DBusGConnection,
      ∃ line addr post,
        (main argv0 args (some master) errmsg listen).effects =
          Effect.dbus_g_bus_get o.type ::
          Effect.dbus_connection_add_filter master.conn FilterFn.master_filter_cb ::
          Effect.g_print line ::
          Effect.dbus_server_listen addr :: post ∧
        listens post = []) := by
  constructor
  · refine ⟨(main argv0 args none errmsg listen).effects, ?_, ?_, ?_, ?_⟩ <;>
      simp [main, hv, MainOutcome.effects, listens, accept_registrations]
  · intro master
    obtain ⟨post, hs, hl⟩ := start_bus_effects o.host o.bind o.port o.family listen
    cases hsb : start_bus o.host o.bind o.port o.family listen with
    | returned e2 =>
      rw [hsb] at hs
      simp only [StartOutcome.effects] at hs
      refine ⟨g_strdup_printf "Listen on address: %s\n"
          [PrintfArg.s (some (dbus_srv_addr o.host o.bind o.port o.family))],
        dbus_srv_addr o.host o.bind o.port o.family,
        post ++ [Effect.g_main_loop_new, Effect.g_main_loop_run], ?_, ?_⟩
      · simp [main, hv, hsb, MainOutcome.effects, hs]
      · simp [listens_append, hl, listens]
    | exited code e2 =>
      rw [hsb] at hs
      simp only [StartOutcome.effects] at hs
      refine ⟨g_strdup_printf "Listen on address: %s\n"
          [PrintfArg.s (some (dbus_srv_addr o.host o.bind o.port o.family))],
        dbus_srv_addr o.host o.bind o.port o.family, post, ?_, hl⟩
      simp [main, hv, hsb, MainOutcome.effects, hs]

/-- Witness of C9: `--system --port 9000`. -/
theorem main_startup_order_witness :
    (∃ effs,
      main "dbus-daemon-proxy" ["--system", "--port", "9000"] none "no bus" (some 3) =
        MainOutcome.returned 1 effs ∧
      effs.head? = some (Effect.dbus_g_bus_get DBusBusType.DBUS_BUS_SYSTEM) ∧
      listens effs = [] ∧ accept_registrations effs = []) ∧
    (∀ master : DBusGConnection,
      ∃ line addr post,
        (main "dbus-daemon-proxy" ["--system", "--port", "9000"] (some master) "no bus"
            (some 3)).effects =
          Effect.dbus_g_bus_get DBusBusType.DBUS_BUS_SYSTEM ::
          Effect.dbus_connection_add_filter master.conn FilterFn.master_filter_cb ::
          Effect.g_print line ::
          Effect.dbus_server_listen addr :: post ∧
        listens post = []) :=
  main_startup_order "dbus-daemon-proxy" ["--system", "--port", "9000"]
    { Options.default with type := DBusBusType.DBUS_BUS_SYSTEM, port := some "9000" }
    "no bus" (some 3) (by decide)

/-! ## Single tenancy -/

theorem accept_all_refused (g : Globals) (c : Conn) (hc : g.dbus_conn = some c)
    (cs : List Conn) :
    accept_all g cs = cs.map (fun _ => (g, refuse_effects)) := by
  induction cs with
  | nil => rfl
  | cons d ds ih =>
    have h : new_connection_cb g d = (g, refuse_effects) := by
      simp [new_connection_cb, hc, refuse_effects]
    simp [accept_all, h, ih]

theorem active_sessions_append (t e : List Effect) :
    active_sessions (t ++ e) = e.foldl session_step (active_sessions t) := by
  simp [active_sessions, List.foldl_append]

theorem foldl_verbose (b : Bool) (fmt : String) (msg : DBusMessage) (acc : List Conn) :
    (verbose_trace b fmt msg).foldl session_step acc = acc := by
  cases b <;> simp [verbose_trace, verbose_line, session_step]

/-- A return of `filter_cb` either leaves the globals and the sessions as
they are, or it ends the session of `dbus_conn`. -/
theorem filter_cb_ret_sessions (g g1 : Globals) (conn : Conn) (msg : DBusMessage)
    (lib : Lib) (r : DBusHandlerResult) (effs : List Effect)
    (h : filter_cb g conn msg lib = Outcome.ret r g1 effs) :
    (g1 = g ∧ ∀ acc, effs.foldl session_step acc = acc) ∨
    (∃ c, IsDisconnected msg ∧ g.dbus_conn = some c ∧ g1.dbus_conn = none ∧
      ∀ acc, effs.foldl session_step acc = acc.filter (fun x => decide (x ≠ c))) := by
  unfold filter_cb at h
  rcases ht : hello_test msg with _ | _ | _
  · simp [ht] at h
  · rcases hd : disconnected_test msg with _ | _ | _
    · simp [ht, hd] at h
    · by_cases hm : lib.marshal_ok = false
      · simp [ht, hd, hm] at h
        obtain ⟨-, hg, he⟩ := h
        left
        subst hg he
        exact ⟨rfl, fun acc => foldl_verbose _ _ _ _⟩
      · simp [ht, hd, hm] at h
        obtain ⟨-, hg, he⟩ := h
        left
        subst hg he
        refine ⟨rfl, fun acc => ?_⟩
        simp [List.foldl_append, foldl_verbose, session_step]
    · rcases hc : g.dbus_conn with _ | c
      · simp [ht, hd, hc] at h
      · simp [ht, hd, hc] at h
        obtain ⟨-, hg, he⟩ := h
        right
        subst hg he
        refine ⟨c, (disconnected_test_eq_true msg).1 hd, rfl, rfl, fun acc => ?_⟩
        simp [List.foldl_append, foldl_verbose, session_step]
  · by_cases ha : lib.append_args_ok = false
    · simp [ht, ha] at h
    · simp [ht, ha] at h
      obtain ⟨-, hg, he⟩ := h
      left
      subst hg he
      refine ⟨rfl, fun acc => ?_⟩
      simp [List.foldl_append, foldl_verbose, session_step]

/-- A return of `master_filter_cb` leaves the globals and the sessions as
they are. -/
theorem master_filter_cb_ret_sessions (g g1 : Globals) (conn : Conn) (msg : DBusMessage)
    (lib : Lib) (r : DBusHandlerResult) (effs : List Effect)
    (h : master_filter_cb g conn msg lib = Outcome.ret r g1 effs) :
    g1 = g ∧ ∀ acc, effs.foldl session_step acc = acc := by
  unfold master_filter_cb at h
  rcases hc : g.dbus_conn with _ | c
  · simp [hc] at h
    obtain ⟨-, hg, he⟩ := h
    subst hg he
    exact ⟨rfl, fun acc => rfl⟩
  · by_cases hm : lib.marshal_ok = false
    · simp [hc, hm] at h
      obtain ⟨-, hg, he⟩ := h
      subst hg he
      exact ⟨rfl, fun acc => foldl_verbose _ _ _ _⟩
    · simp [hc, hm] at h
      obtain ⟨-, hg, he⟩ := h
      subst hg he
      refine ⟨rfl, fun acc => ?_⟩
      simp [List.foldl_append, foldl_verbose, session_step]

theorem step_preserves (s s1 : Sys) (ev : Event) (hinv : SessionInv s)
    (h : step s ev = some s1) : SessionInv s1 := by
  unfold SessionInv at hinv ⊢
  cases ev with
  | accept conn =>
    simp only [step, Option.some.injEq] at h
    subst h
    rcases hc : s.g.dbus_conn with _ | c
    · simp [new_connection_cb, hc, active_sessions_append, hinv, session_step]
    · simp [new_connection_cb, hc, active_sessions_append, hinv, session_step]
  | client_msg conn msg lib =>
    simp only [step] at h
    split at h
    · cases hf : filter_cb s.g conn msg lib with
      | ret r g1 effs =>
        rw [hf] at h
        simp only [Option.some.injEq] at h
        subst h
        rcases filter_cb_ret_sessions _ _ _ _ _ _ _ hf with ⟨hg, he⟩ | ⟨c, -, hc, hn, he⟩
        · simp [active_sessions_append, he, hinv, hg]
        · simp [active_sessions_append, he, hinv, hc, hn]
      | exit code effs => rw [hf] at h; simp at h
      | undefined effs => rw [hf] at h; simp at h
    · simp at h
  | master_msg msg lib =>
    simp only [step] at h
    cases hf : master_filter_cb s.g s.g.master_conn.conn msg lib with
    | ret r g1 effs =>
      rw [hf] at h
      simp only [Option.some.injEq] at h
      subst h
      obtain ⟨hg, he⟩ := master_filter_cb_ret_sessions _ _ _ _ _ _ _ hf
      simp [active_sessions_append, he, hinv, hg]
    | exit code effs => rw [hf] at h; simp at h
    | undefined effs => rw [hf] at h; simp at h

theorem run_preserves (evs : List Event) (s s1 : Sys) (hinv : SessionInv s)
    (h : run s evs = some s1) : SessionInv s1 := by
  induction evs generalizing s with
  | nil =>
    simp only [run, Option.some.injEq] at h
    subst h
    exact hinv
  | cons ev rest ih =>
    simp only [run] at h
    cases hs : step s ev with
    | none => rw [hs] at h; simp at h
    | some s2 =>
      rw [hs] at h
      exact ih s2 (step_preserves s s2 ev hinv hs) h

theorem step_keeps_session (s s1 : Sys) (ev : Event) (c : Conn)
    (hc : s.g.dbus_conn = some c) (hnd : ¬ ev.isDisconnect) (h : step s ev = some s1) :
    s1.g = s.g ∧ active_sessions s1.trace = active_sessions s.trace := by
  cases ev with
  | accept conn =>
    simp only [step, Option.some.injEq] at h
    subst h
    simp [new_connection_cb, hc, active_sessions_append, session_step]
  | client_msg conn msg lib =>
    simp only [step] at h
    split at h
    · cases hf : filter_cb s.g conn msg lib with
      | ret r g1 effs =>
        rw [hf] at h
        simp only [Option.some.injEq] at h
        subst h
        rcases filter_cb_ret_sessions _ _ _ _ _ _ _ hf with ⟨hg, he⟩ | ⟨d, hd, -⟩
        · simp [active_sessions_append, he, hg]
        · exact absurd hd hnd
      | exit code effs => rw [hf] at h; simp at h
      | undefined effs => rw [hf] at h; simp at h
    · simp at h
  | master_msg msg lib =>
    simp only [step] at h
    cases hf : master_filter_cb s.g s.g.master_conn.conn msg lib with
    | ret r g1 effs =>
      rw [hf] at h
      simp only [Option.some.injEq] at h
      subst h
      obtain ⟨hg, he⟩ := master_filter_cb_ret_sessions _ _ _ _ _ _ _ hf
      simp [active_sessions_append, he, hg]
    | exit code effs => rw [hf] at h; simp at h
    | undefined effs => rw [hf] at h; simp at h

theorem run_keeps_session (evs : List Event) (s s1 : Sys) (c : Conn)
    (hc : s.g.dbus_conn = some c) (hnd : ∀ ev ∈ evs, ¬ ev.isDisconnect)
    (h : run s evs = some s1) :
    s1.g = s.g ∧ active_sessions s1.trace = active_sessions s.trace := by
  induction evs generalizing s with
  | nil =>
    simp only [run, Option.some.injEq] at h
    subst h
    exact ⟨rfl, rfl⟩
  | cons ev rest ih =>
    simp only [run] at h
    cases hs : step s ev with
    | none => rw [hs] at h; simp at h
    | some s2 =>
      rw [hs] at h
      obtain ⟨hg, ha⟩ := step_keeps_session s s2 ev c hc
        (hnd ev (List.mem_cons_self _ _)) hs
      obtain ⟨hg2, ha2⟩ := ih s2 (by rw [hg]; exact hc)
        (fun e he => hnd e (List.mem_cons_of_mem _ he)) h
      exact ⟨hg2.trans hg, ha2.trans ha⟩

/-- C1: from a state with no client session, a sequence of accept events
(of any length, so of any length N >= 2) admits exactly the first connection
`c` (it becomes `dbus_conn`, is referenced and gets `filter_cb` installed)
and refuses every later one: each later accept makes no call on its
connection (only the diagnostic is printed) and leaves the globals, with
`dbus_conn` still `c`, as they were.  More generally, while `dbus_conn` is
`c`, events of any kind other than the disconnect notification leave the
globals and the Active sessions as they are.  Hence in every state the
process reaches from start-up, by any events, the Active sessions are the
connection in `dbus_conn` if any: at most one. -/
theorem single_tenancy (g : Globals) (c : Conn) (cs : List Conn)
    (h0 : g.dbus_conn = none) :
    accept_all g (c :: cs) =
      ({ g with dbus_conn := some c }, admit_effects c) ::
        cs.map (fun _ => ({ g with dbus_conn := some c }, refuse_effects)) ∧
    (∀ (s s1 : Sys) (evs : List Event), s.g.dbus_conn = some c →
      (∀ ev ∈ evs, ¬ ev.isDisconnect) → run s evs = some s1 →
        s1.g = s.g ∧ active_sessions s1.trace = active_sessions s.trace) ∧
    (∀ (master : DBusGConnection) (verbose : Bool) (evs : List Event) (s : Sys),
      run (boot master verbose) evs = some s →
        active_sessions s.trace = s.g.dbus_conn.toList ∧
        (active_sessions s.trace).length ≤ 1) := by
  refine ⟨?_, ?_, ?_⟩
  · have h : new_connection_cb g c = ({ g with dbus_conn := some c }, admit_effects c) := by
      simp [new_connection_cb, h0, admit_effects]
    simp only [accept_all, h]
    rw [accept_all_refused _ c rfl cs]
  · intro s s1 evs hc hnd hrun
    exact run_keeps_session evs s s1 c hc hnd hrun
  · intro master verbose evs s hrun
    have hinv : SessionInv s := run_preserves evs (boot master verbose) s rfl hrun
    refine ⟨hinv, ?_⟩
    rw [hinv]
    cases s.g.dbus_conn <;> simp

/-- Witness of C1: three accepts with no session (connection 7 is admitted,
8 and 9 are refused); two non-disconnect events on the session of
connection 7; and the run `demo_events` from start-up, which ends with the
one session of connection 9. -/
theorem single_tenancy_witness :
    g_idle.dbus_conn = none ∧
    accept_all g_idle [7, 8, 9] =
      [(g_active, admit_effects 7), (g_active, refuse_effects), (g_active, refuse_effects)] ∧
    (run (boot g_idle.master_conn false) (demo_events.take 1)).map (fun s => s.g) =
      some g_active ∧
    (run (boot g_idle.master_conn false) (demo_events.take 5)).map (fun s => s.g) =
      some g_active ∧
    (run (boot g_idle.master_conn false) demo_events).map
      (fun s => (active_sessions s.trace, s.g.dbus_conn)) = some ([9], some 9) ∧
    (∀ s, run (boot g_idle.master_conn false) demo_events = some s →
      active_sessions s.trace = s.g.dbus_conn.toList ∧
      (active_sessions s.trace).length ≤ 1) :=
  ⟨rfl, (single_tenancy g_idle 7 [8, 9] rfl).1, by decide, by decide, by decide,
   fun s h => (single_tenancy g_idle 7 [8, 9] rfl).2.2 g_idle.master_conn false
     demo_events s h⟩

end DBusProxy
